import Mathlib

/-!
Shallow embedding of the HERMES-SOC `swsoc-processing-lambda` file-processing
pipeline, together with theorems checking the natural-language specification
against it.

The repository contains two parallel implementations of the pipeline:

* `src/lambda_function/src/file_processor/file_processor.py` — the variant with
  static methods `_parse_file`, `_get_file`, `_calibrate_file`, `_put_file` and
  the entry point `handle_event`.  Embedded below in namespace `FileProcessor`.
  Note: its `_process_file` unpacks the four-element tuple `_parse_file`
  returns into *three* names (lines 146-150), so in Python every call raises
  `ValueError: too many values to unpack` right after parsing; the embedding
  reproduces that, and the composite pipeline flow is therefore analysed on
  the individual methods and on the handler-wired variant below, which
  implements the same flow without the slip.
* `src/lambda_function/file_processor/file_processor.py` — the variant wired to
  `src/lambda_function/handler.py` (`handler_function`), whose `_process_file`
  is one monolithic method.  Embedded below in namespace `FileProcessorLF`.

Shared helpers come from `src/lambda_function/file_processor/util.py`
(`parse_file_key`, `create_s3_file_key`, `object_exists`,
`send_slack_notification`).

Modelling conventions:

* S3 is a list of `(bucket, key)` pairs that currently exist; `object_exists`
  is membership.  Transport-level failures of a download/upload that follows a
  successful existence check are outside the model (the claims under scrutiny
  are about control flow, idempotency and dry-run gating, not about transient
  I/O faults).
* Every pipeline step returns an `Except PyError` result paired with a trace
  of externally visible effects (`Effect`), in the order they are performed.
  A `.error e` result models a Python exception `e` propagating out of the
  step; a caught exception never appears as `.error`.
* External collaborators that the source receives as imports from the
  `sdc_aws_utils` package (the science filename parser, the instrument→bucket
  and instrument→package registries) are parameters of the embedded functions,
  exactly as `create_s3_file_key` already takes the parser as an argument in
  the source.  The dynamically imported calibration capability
  (`calibration.process_file`) is a parameter `cal`.
* Python string formatting `f"{year}"` is `toString (year : Nat)`; Python's
  `str.split("/")` and `pathlib.Path(...).name` are modelled by the
  character-level splitter `splitSlashChars` below (kernel-reducible, unlike
  `String.splitOn`), which agrees with Python on every key not ending in "/".
-/

deriving instance DecidableEq for Except

/-- Python exception classes that can propagate through the pipeline. -/
inductive PyError where
  /-- Python `FileNotFoundError` raised by `_get_file` when the source object is absent. -/
  | fileNotFound (msg : String)
  /-- Python `ValueError`, e.g. from a calibration routine or `datetime.strptime`. -/
  | valueError (msg : String)
  /-- Python `KeyError` from a dict lookup (`INSTR_TO_PKG[...]`, `INSTR_TO_BUCKET_NAME[...]`). -/
  | keyError (msg : String)
  /-- Python `TypeError`-class failure of the science filename parser on a bad input
  (in particular `parser(None)` when the calibrated filename is `None`). -/
  | parseError (msg : String)
  /-- Python `IndexError` from `process_file(...)[0]` when calibration returns no products. -/
  | indexError
  /-- any other exception (transport errors etc.). -/
  | other (msg : String)
deriving DecidableEq, Repr

/-- The message interpolated into `f"Error Processing File: {e}"`. -/
def PyError.message : PyError → String
  | .fileNotFound m => m
  | .valueError m => m
  | .keyError m => m
  | .parseError m => m
  | .indexError => "list index out of range"
  | .other m => m

/-- Externally visible actions of one pipeline run, in execution order. -/
inductive Effect where
  /-- Python `object_exists` → `head_object` (a metadata request, no object bytes). -/
  | headObject (bucket key : String)
  /-- Python `download_file_from_s3` — bytes read from the source bucket. -/
  | download (bucket key : String)
  /-- Python `upload_file_to_s3` — bytes written to the destination bucket. -/
  | upload (bucket key : String)
  /-- invocation of the instrument calibration capability `calibration.process_file`. -/
  | calibrate (path : Option String)
  /-- construction of a `FileProcessor` for one storage-change record. -/
  | fpRun (bucket key : String)
  /-- Python `time.sleep(seconds)` between Slack delivery attempts. -/
  | sleep (seconds : Nat)
  /-- one `chat_postMessage` delivery attempt. -/
  | slackPost
  /-- one full `send_slack_notification` call made by the pipeline. -/
  | slackNotify
  /-- Python `log_to_timestream` write. -/
  | timestream
deriving DecidableEq, Repr

/-- Is this effect a calibration invocation? -/
def Effect.isCalibrate : Effect → Bool
  | .calibrate _ => true
  | _ => false

/-- Is this effect a download (bytes read from a bucket)? -/
def Effect.isDownload : Effect → Bool
  | .download _ _ => true
  | _ => false

/-- Is this effect an upload (bytes written to a bucket)? -/
def Effect.isUpload : Effect → Bool
  | .upload _ _ => true
  | _ => false

/-- Is this effect a `FileProcessor` construction for a record? -/
def Effect.isFpRun : Effect → Bool
  | .fpRun _ _ => true
  | _ => false

/-- Is this effect a Slack post attempt? -/
def Effect.isSlackPost : Effect → Bool
  | .slackPost => true
  | _ => false

/-- Parsed science-filename metadata (the `ScienceFileDescriptor` of the spec):
the fields of the dict returned by the external `sdc_aws_utils.config.parser`
that this repository's code reads (`science_file["instrument"]`,
`science_file["level"]`, and the year/month of the reference timestamp obtained
by `datetime.strptime(science_file["time"].value, "%Y-%m-%dT%H:%M:%S.%f")`).
The `strptime` round trip is folded into the parser abstraction: a parser
failure of either stage is the `Except.error` case. -/
structure ScienceFile where
  instrument : String
  level : String
  timeYear : Nat
  timeMonth : Nat
deriving DecidableEq, Repr

/-- Character-level model of Python `str.split("/")` (total, kernel-reducible). -/
def splitSlashChars : List Char → List (List Char)
  | [] => [[]]
  | c :: cs =>
    let r := splitSlashChars cs
    if c = '/' then [] :: r
    else (c :: r.headD []) :: r.tail

/-- Python `str.split("/")` on a `String`. -/
def split_on_slash (s : String) : List String :=
  (splitSlashChars s.data).map String.mk

/-- Python `file_key.split("/")[-1]` (src variant `_parse_file`), also modelling
`pathlib.Path(file_path).name` (`parse_file_key` in
`file_processor/util.py`) for paths not ending in "/". -/
def parse_file_key (file_path : String) : String :=
  (split_on_slash file_path).getLast?.getD ""

/-- Python `month = f"0{month}" if month < 10` followed by interpolation
(`create_s3_file_key`, `file_processor/util.py` lines 82-84). -/
def month2 (month : Nat) : String :=
  if month < 10 then "0" ++ toString month else toString month

/-- Python `create_s3_file_key` from `src/lambda_function/file_processor/util.py`:
`{science_file['level']}/{year}/{month}/{old_file_key}` where year/month come
from the parsed reference timestamp; parser or timestamp failures propagate
(the `except KeyError` clause in the source re-raises). -/
def create_s3_file_key (scienceFileParse : String → Except PyError ScienceFile)
    (old_file_key : String) : Except PyError String := do
  let science_file ← scienceFileParse old_file_key
  let year := science_file.timeYear
  let month := month2 science_file.timeMonth
  pure (science_file.level ++ "/" ++ toString year ++ "/" ++ month ++ "/" ++ old_file_key)

/-- Python `object_exists` from `file_processor/util.py`: `head_object` succeeding
means the object is present; a `ClientError` means it is not. -/
def object_exists (s3 : List (String × String)) (bucket file_key : String) : Bool :=
  s3.contains (bucket, file_key)

/-- The pipeline's environment: the S3 object store and the
`SDC_AWS_FILE_PATH` environment variable (the local file-path override). -/
structure World where
  s3 : List (String × String)
  sdcAwsFilePath : Option String := none
deriving DecidableEq, Repr

/-- The external collaborators a pipeline run dispatches to: the science
filename parser, `get_instrument_bucket`, the `INSTR_TO_PKG` registry and the
dynamically imported calibration capability `calibration.process_file` (which
returns the list of produced artifact paths, or raises). All four live in
external packages (`sdc_aws_utils`, the instrument libraries), so they are
parameters of the embedding, as the source takes them via imports. -/
structure Collab where
  parser : String → Except PyError ScienceFile
  get_instrument_bucket : String → String → Except PyError String
  instr_to_pkg : String → Option String
  cal : Option String → Except PyError (List String)

/-- Python `json.dumps` on a string payload containing no characters needing
escapes: it wraps the payload in double quotes. -/
def json_dumps (s : String) : String := "\"" ++ s ++ "\""

/-- An HTTP-style lambda response `{statusCode, body}`. -/
structure HttpResp where
  statusCode : Nat
  body : String
deriving DecidableEq, Repr

namespace FileProcessor

/-- Python `FileProcessor._parse_file` (src variant, lines 171-191): strip the path
from the object key, parse the science filename, look up the destination
bucket for the instrument and the running environment. -/
def parse_file (scienceFilenameParse : String → Except PyError ScienceFile)
    (get_instrument_bucket : String → String → Except PyError String)
    (file_key environment : String) :
    Except PyError (String × ScienceFile × String × String) := do
  let parsed_file_key := parse_file_key file_key
  let science_file ← scienceFilenameParse parsed_file_key
  let this_instr := science_file.instrument
  let destination_bucket ← get_instrument_bucket this_instr environment
  pure (parsed_file_key, science_file, this_instr, destination_bucket)

/-- Python `FileProcessor._get_file` (src variant, lines 222-275).  When not a dry
run: honour the `SDC_AWS_FILE_PATH` override, else check existence in the
source bucket (`head_object`), raise `FileNotFoundError` when absent, else
download to `/tmp/{parsed_file_key}`.  On a dry run: return `None` with no
S3 interaction at all. -/
def get_file (w : World) (instrument_bucket_name file_key parsed_file_key : String)
    (dry_run : Bool) : Except PyError (Option String) × List Effect :=
  if !dry_run then
    match w.sdcAwsFilePath with
    | some p => (.ok (some p), [])
    | none =>
      if object_exists w.s3 instrument_bucket_name file_key then
        (.ok (some ("/tmp/" ++ parsed_file_key)),
          [.headObject instrument_bucket_name file_key,
           .download instrument_bucket_name file_key])
      else
        (.error (.fileNotFound
            ("File " ++ file_key ++ " does not exist in bucket " ++ instrument_bucket_name)),
          [.headObject instrument_bucket_name file_key])
  else
    (.ok none, [])

/-- Python `FileProcessor._calibrate_file` (src variant, lines 193-220):
dynamic import of `INSTR_TO_PKG[instrument].calibration` (a missing entry is
a `KeyError`, which the `except ValueError` clause does not catch), then
`calibration.process_file(file_path)[0].name`.  A `ValueError` from the
capability is caught and logged, making the method return `None`; an empty
product list is an `IndexError`; any other exception propagates. -/
def calibrate_file (instr_to_pkg : String → Option String)
    (cal : Option String → Except PyError (List String))
    (instrument : String) (file_path : Option String) :
    Except PyError (Option String) × List Effect :=
  match instr_to_pkg instrument with
  | none => (.error (.keyError instrument), [])
  | some _pkg =>
    match cal file_path with
    | .error (.valueError _) => (.ok none, [.calibrate file_path])
    | .error e => (.error e, [.calibrate file_path])
    | .ok [] => (.error .indexError, [.calibrate file_path])
    | .ok (new_file_path :: _) => (.ok (some (parse_file_key new_file_path)), [.calibrate file_path])

/-- Python `FileProcessor._put_file` (src variant, lines 277-314): derive the new
file key with `create_s3_file_key` (calling the parser with `None` when
calibration produced no filename raises), then upload to the destination
bucket — but only when not a dry run and no `SDC_AWS_FILE_PATH` override is
set — and return the new key.  Note: the source performs no existence check
against the destination bucket before uploading. -/
def put_file (w : World) (scienceFilenameParse : String → Except PyError ScienceFile)
    (destination_bucket : String) (calibrated_filename : Option String)
    (dry_run : Bool) : Except PyError String × List Effect :=
  match calibrated_filename with
  | none => (.error (.parseError "science filename parser called with None"), [])
  | some filename =>
    match create_s3_file_key scienceFilenameParse filename with
    | .error e => (.error e, [])
    | .ok new_file_key =>
      if !dry_run && w.sdcAwsFilePath = none then
        (.ok new_file_key, [.upload destination_bucket new_file_key])
      else
        (.ok new_file_key, [])

/-- Python `FileProcessor._process_file` (src variant, lines 136-169), faithfully:
it unpacks the 4-tuple `_parse_file` returns into the three names
`(parsed_file_key, this_instr, destination_bucket)` (lines 146-150), so when
parsing succeeds the unpacking itself raises
`ValueError: too many values to unpack (expected 3)` and nothing after it
(`_get_file`, `_calibrate_file`, `_put_file`) is ever reached; when parsing
fails, that failure propagates. -/
def process_file (c : Collab) (w : World)
    (instrument_bucket_name file_key environment : String) (dry_run : Bool) :
    Except PyError String × List Effect :=
  match parse_file c.parser c.get_instrument_bucket file_key environment with
  | .error e => (.error e, [])
  | .ok _ =>
    (.error (.valueError "too many values to unpack (expected 3)"), [])

end FileProcessor

/-- Python `handle_event` (src variant, lines 40-75).  The trigger envelope is
modelled post-JSON-shredding: `none` when
`json.loads(event["Records"][0]["Sns"]["Message"])["Records"]` raises (a
malformed envelope), otherwise the list of `(bucket, objectKey)` records.
The `for` loop constructs a `FileProcessor` for the first record and returns
200 from inside the loop; when the record list is empty the loop body never
runs and the Python function falls off the end, returning `None` — hence the
`Option HttpResp` result.  Any exception is caught and mapped to a 500
response whose body is `json.dumps(f"Error Processing File: {e}")`; the
success body (line 67) is a plain string, not `json.dumps`-wrapped. -/
def handle_event (c : Collab) (w : World)
    (records? : Option (List (String × String))) (environment : String) :
    Option HttpResp × List Effect :=
  match records? with
  | none => (some ⟨500, json_dumps "Error Processing File: malformed event"⟩, [])
  | some [] => (none, [])
  | some ((s3_bucket, file_key) :: _) =>
    let r := FileProcessor.process_file c w s3_bucket file_key environment false
    match r.1 with
    | .ok _ => (some ⟨200, "File Processed Successfully"⟩, .fpRun s3_bucket file_key :: r.2)
    | .error e =>
      (some ⟨500, json_dumps ("Error Processing File: " ++ e.message)⟩,
        .fpRun s3_bucket file_key :: r.2)

namespace FileProcessorLF

/-- The `(.error e, trace)` outcome of the outer `except Exception` clause of
`FileProcessorLF._process_file` (lines 241-256): log, send an error Slack
notification when a Slack client is configured, and `raise e`. -/
def outerExcept (slackConfigured : Bool) (e : PyError) (t : List Effect) :
    Except PyError Unit × List Effect :=
  (.error e, t ++ if slackConfigured then [Effect.slackNotify] else [])

/-- Python `FileProcessor._process_file` from
`src/lambda_function/file_processor/file_processor.py` (lines 143-256), the
variant `handler.py` instantiates.  Control flow, faithfully:

* `object_exists(source) or dry_run` guards the whole body; when the source
  object is absent and it is not a dry run, the method returns normally
  having done nothing beyond the `head_object` probe.
* inside the guard: `parse_file_key`, a download when not a dry run, the
  science filename parse, the `INSTR_TO_BUCKET_NAME` and `INSTR_TO_PKG`
  lookups (a missing entry is a `KeyError` reaching the outer handler), the
  calibration call `calibration.process_file(file_path)[0].name`, the key
  build, and — when not a dry run — the upload followed by a success Slack
  notification (when configured) and the Timestream write.
* the inner `except ValueError` (line 238) swallows a `ValueError` raised
  anywhere in that inner block (calibration, or `strptime` inside
  `create_s3_file_key`), merely logging it; the method then returns normally.
* every other exception hits the outer `except Exception`, which notifies and
  re-raises.

The CDF tracker is disabled (`db_host=None`) in this model, matching a run
without `SDC_AWS_DBHOST`. -/
def process_file (c : Collab) (instr_to_bucket : String → Option String)
    (w : World) (slackConfigured : Bool)
    (instrument_bucket_name file_key : String) (dry_run : Bool) :
    Except PyError Unit × List Effect :=
  let hd := Effect.headObject instrument_bucket_name file_key
  if object_exists w.s3 instrument_bucket_name file_key || dry_run then
    let parsed_file_key := parse_file_key file_key
    let fd : Option String × List Effect :=
      if !dry_run then
        (some ("/tmp/" ++ parsed_file_key),
          [Effect.download instrument_bucket_name file_key])
      else (none, [])
    let file_path := fd.1
    let t1 := hd :: fd.2
    match c.parser parsed_file_key with
    | .error e => outerExcept slackConfigured e t1
    | .ok science_file =>
      match instr_to_bucket science_file.instrument with
      | none => outerExcept slackConfigured (.keyError science_file.instrument) t1
      | some destination_bucket =>
        match c.instr_to_pkg science_file.instrument with
        | none => outerExcept slackConfigured (.keyError science_file.instrument) t1
        | some _pkg =>
          match c.cal file_path with
          | .error (.valueError _) => (.ok (), t1 ++ [Effect.calibrate file_path])
          | .error e => outerExcept slackConfigured e (t1 ++ [Effect.calibrate file_path])
          | .ok [] => outerExcept slackConfigured .indexError (t1 ++ [Effect.calibrate file_path])
          | .ok (p :: _) =>
            let new_file_path := parse_file_key p
            match create_s3_file_key c.parser new_file_path with
            | .error (.valueError _) => (.ok (), t1 ++ [Effect.calibrate file_path])
            | .error e => outerExcept slackConfigured e (t1 ++ [Effect.calibrate file_path])
            | .ok new_file_key =>
              if !dry_run then
                (.ok (), t1 ++ [Effect.calibrate file_path,
                    Effect.upload destination_bucket new_file_key]
                  ++ (if slackConfigured then [Effect.slackNotify] else [])
                  ++ [Effect.timestream])
              else
                (.ok (), t1 ++ [Effect.calibrate file_path])
  else
    (.ok (), [hd])

end FileProcessorLF

/-- The `for s3_event in records` loop of `handler_function`
(`src/lambda_function/handler.py` lines 43-53): construct a `FileProcessor`
per record, sequentially; the 200 response is returned only after the loop
has run over *all* records; an exception from any record aborts into the
`except` clause with a 500. -/
def handler_loop (c : Collab) (instr_to_bucket : String → Option String)
    (w : World) (slackConfigured : Bool) :
    List (String × String) → List Effect → HttpResp × List Effect
  | [], acc => (⟨200, json_dumps "File Processed Successfully"⟩, acc)
  | (s3_bucket, file_key) :: rest, acc =>
    let r := FileProcessorLF.process_file c instr_to_bucket w slackConfigured
      s3_bucket file_key false
    match r.1 with
    | .ok _ => handler_loop c instr_to_bucket w slackConfigured rest
        (acc ++ Effect.fpRun s3_bucket file_key :: r.2)
    | .error e =>
      (⟨500, json_dumps ("Error Processing File: " ++ e.message)⟩,
        acc ++ Effect.fpRun s3_bucket file_key :: r.2)

/-- Python `handler_function` (`src/lambda_function/handler.py` lines 22-63): shred
the SNS envelope (`none` models a malformed envelope whose JSON access
raises), run the loop, and map any exception to a 500 response.  Both bodies
go through `json.dumps`. -/
def handler_function (c : Collab) (instr_to_bucket : String → Option String)
    (w : World) (slackConfigured : Bool)
    (records? : Option (List (String × String))) : HttpResp × List Effect :=
  match records? with
  | none => (⟨500, json_dumps "Error Processing File: malformed event"⟩, [])
  | some records => handler_loop c instr_to_bucket w slackConfigured records []

/-- The `for i in range(slack_max_retries)` loop of `send_slack_notification`
(`src/lambda_function/file_processor/util.py` lines 322-364), indexed by the
number of attempts remaining after the current one (`remaining = slack_max_retries - 1 - i`).
`attempt i = true` means the `chat_postMessage` call of attempt `i` succeeds;
a failure on a non-final attempt sleeps `slack_retry_delay` seconds and
retries; a failure on the final attempt logs and returns `None`. -/
def slackAttempts (attempt : Nat → Bool) (slack_retry_delay : Nat) :
    Nat → Nat → Option Bool × List Effect
  | _, 0 => (none, [])
  | i, remaining + 1 =>
    if attempt i then (some true, [Effect.slackPost])
    else if remaining = 0 then (none, [Effect.slackPost])
    else
      let r := slackAttempts attempt slack_retry_delay (i + 1) remaining
      (r.1, Effect.slackPost :: Effect.sleep slack_retry_delay :: r.2)

/-- Python `send_slack_notification` (`file_processor/util.py` lines 306-364):
returns `some true` on a successful delivery, `none` (Python `None`, falling
off the loop or hitting the final-attempt branch) after exhausting the
budget.  `SlackApiError` is always caught, so delivery failure never raises. -/
def send_slack_notification (attempt : Nat → Bool)
    (slack_max_retries slack_retry_delay : Nat) : Option Bool × List Effect :=
  slackAttempts attempt slack_retry_delay 0 slack_max_retries

/-- Default `slack_max_retries` of `send_slack_notification` (line 311). -/
def send_slack_notification_default_max_retries : Nat := 5

/-- Default `slack_retry_delay` of `send_slack_notification` (line 312). -/
def send_slack_notification_default_retry_delay : Nat := 5

/-- Default `slack_retries` of the `FileProcessor` constructor
(`file_processor/file_processor.py` line 72). -/
def fileProcessor_default_slack_retries : Nat := 3

/-- Default `slack_retry_delay` of the `FileProcessor` constructor
(`file_processor/file_processor.py` line 73). -/
def fileProcessor_default_slack_retry_delay : Nat := 5

/-- Modelled from the spec: the behaviour of the external science filename
parser (`sdc_aws_utils.config.parser`, not part of this repository) on the two
filenames of spec Scenario A — the raw `hermes_EEA_l0_2023042-000000_v0.bin`
(level l0, day 042 of 2023 = February 11) and the calibrated
`hermes_eea_l1_20230211T000000_v1.0.0.cdf` (level l1, reference timestamp
2023-02-11T00:00:00) — failing on any other string, as §4.1 requires. -/
def scenarioParser : String → Except PyError ScienceFile := fun fn =>
  if fn = "hermes_EEA_l0_2023042-000000_v0.bin" then
    .ok ⟨"eea", "l0", 2023, 2⟩
  else if fn = "hermes_eea_l1_20230211T000000_v1.0.0.cdf" then
    .ok ⟨"eea", "l1", 2023, 2⟩
  else
    .error (.valueError ("could not parse " ++ fn))

/-- Modelled from the spec: `get_instrument_bucket` (external,
`sdc_aws_utils.config`), §4.2 — a registered instrument maps to its bucket,
with the environment contributing only a "dev-" naming prefix; an unknown
instrument is a `KeyError`-class routing failure. -/
def scenarioBucket : String → String → Except PyError String := fun instrument environment =>
  if instrument = "eea" then
    .ok (if environment = "PRODUCTION" then "hermes-eea" else "dev-hermes-eea")
  else
    .error (.keyError instrument)

/-- The `INSTR_TO_PKG` registry restricted to the scenario instrument. -/
def scenarioPkg : String → Option String := fun instrument =>
  if instrument = "eea" then some "hermes_eea" else none

/-- The `INSTR_TO_BUCKET_NAME` registry used by the `FileProcessorLF` variant. -/
def scenarioBucketLF : String → Option String := fun instrument =>
  if instrument = "eea" then some "hermes-eea" else none

/-- A deterministic calibration capability for the scenario: a real input file
calibrates to the Scenario A product; a `None` file handle (dry run) is a
`ValueError` (`process_file(None)`). -/
def scenarioCal : Option String → Except PyError (List String) := fun fp =>
  match fp with
  | some _ => .ok ["/tmp/hermes_eea_l1_20230211T000000_v1.0.0.cdf"]
  | none => .error (.valueError "process_file received None")

/-- The collaborator bundle for the concrete scenario runs. -/
def scenarioCollab : Collab :=
  ⟨scenarioParser, scenarioBucket, scenarioPkg, scenarioCal⟩

/-- A collaborator bundle whose calibration capability always fails with a
`ValueError` (a deterministic function-of-input calibration failure). -/
def calValueErrCollab : Collab :=
  ⟨scenarioParser, scenarioBucket, scenarioPkg,
    fun _ => .error (.valueError "deterministic calibration failure")⟩

/-- A collaborator bundle whose calibration capability fails with a
non-`ValueError` exception. -/
def calOtherErrCollab : Collab :=
  ⟨scenarioParser, scenarioBucket, scenarioPkg,
    fun _ => .error (.other "calibration crashed")⟩

/-- The Scenario A raw object key. -/
def rawKey : String := "hermes_EEA_l0_2023042-000000_v0.bin"

/-- The Scenario A calibrated filename. -/
def calKey : String := "hermes_eea_l1_20230211T000000_v1.0.0.cdf"

/-- The Scenario A destination key. -/
def destKey : String := "l1/2023/02/hermes_eea_l1_20230211T000000_v1.0.0.cdf"

/-- The empty world: no objects, no local-path override. -/
def emptyWorld : World := ⟨[], none⟩

/-- A world holding only the raw source object. -/
def srcWorld : World := ⟨[("incoming", rawKey)], none⟩

/-- A world holding the raw source object *and* the destination key already
present in the destination bucket (the idempotency scenario). -/
def srcAndDestWorld : World :=
  ⟨[("incoming", rawKey), ("dev-hermes-eea", destKey)], none⟩

/-- The idempotency-scenario world for the handler-wired variant, whose
`INSTR_TO_BUCKET_NAME` maps `eea` to `hermes-eea`: the raw source object and
the already-published destination key. -/
def srcAndDestWorldLF : World :=
  ⟨[("incoming", rawKey), ("hermes-eea", destKey)], none⟩

/-- Claim C1 counterexample.  The claim says that before any upload the pipeline
checks whether the destination key already exists in the destination bucket
and, if it does, skips the push.  There is no such check anywhere in the
code: in a world where the Scenario A destination key is already present in
the destination bucket, `_put_file` (src variant lines 277-314) still
uploads it and returns the key, and a full (non-dry) run of the
handler-wired pipeline also performs the upload, its trace containing no
existence probe of the destination key — the only `head_object` is the
source-object check. -/
theorem publish_checks_destination_counterexample :
    object_exists srcAndDestWorldLF.s3 "hermes-eea" destKey = true
    ∧ FileProcessor.put_file srcAndDestWorldLF scenarioParser "hermes-eea"
        (some calKey) false = (.ok destKey, [.upload "hermes-eea" destKey])
    ∧ Effect.upload "hermes-eea" destKey
        ∈ (FileProcessorLF.process_file scenarioCollab scenarioBucketLF
            srcAndDestWorldLF false "incoming" rawKey false).2
    ∧ Effect.headObject "hermes-eea" destKey
        ∉ (FileProcessorLF.process_file scenarioCollab scenarioBucketLF
            srcAndDestWorldLF false "incoming" rawKey false).2
    ∧ (FileProcessorLF.process_file scenarioCollab scenarioBucketLF
        srcAndDestWorldLF false "incoming" rawKey false).1 = .ok () := by
  decide

/-- Claim C2: evaluation of the code at the failing input.  The claim (and the
spec: "Not-found is a hard failure, not silently tolerated") requires that a
missing source object fail the invocation with a not-found error.  The src
variant's `_get_file` indeed raises `FileNotFoundError` (first conjunct), but
the variant actually wired to `handler.py`
(`lambda_function/file_processor/file_processor.py` lines 153-161) guards its
whole body with `object_exists(...) or dry_run` with no `else`: on a missing
object it returns normally having only probed `head_object`, never invoking
calibration, and `handler_function` then reports
`statusCode 200, "File Processed Successfully"`. -/
theorem notfound_silently_tolerated_in_handler_variant :
    (FileProcessor.get_file emptyWorld "incoming" rawKey rawKey false).1 =
      .error (.fileNotFound
        "File hermes_EEA_l0_2023042-000000_v0.bin does not exist in bucket incoming")
    ∧ FileProcessorLF.process_file scenarioCollab scenarioBucketLF emptyWorld false
        "incoming" rawKey false = (.ok (), [.headObject "incoming" rawKey])
    ∧ (handler_function scenarioCollab scenarioBucketLF emptyWorld false
        (some [("incoming", rawKey)])).1 = ⟨200, "\"File Processed Successfully\""⟩
    ∧ (handler_function scenarioCollab scenarioBucketLF emptyWorld false
        (some [("incoming", rawKey)])).2.countP Effect.isCalibrate = 0 := by
  decide

/-- Claim C3 counterexample.  The claim says the handler returns a response dict
for every trigger event.  `handle_event` (src variant) returns its 200
response from *inside* the `for` loop; for a well-formed envelope whose inner
`Records` list is empty the loop body never runs, the function falls off the
end, and Python returns `None` — no response dict. -/
theorem handler_always_returns_counterexample :
    (handle_event scenarioCollab srcWorld (some []) "DEVELOPMENT").1 = none := by
  decide

/-- Claim C4 counterexample.  The claim says the handler acts only on the first
storage-change record and records after the first are never processed.
`handler_function` (`handler.py` lines 43-53) returns its 200 *after* the
loop, so it constructs a `FileProcessor` for every record: an envelope with
two records yields two pipeline runs (and two uploads). -/
theorem only_first_record_counterexample :
    (handler_function scenarioCollab scenarioBucketLF srcWorld false
      (some [("incoming", rawKey), ("incoming", rawKey)])).2.countP Effect.isFpRun = 2
    ∧ (handler_function scenarioCollab scenarioBucketLF srcWorld false
      (some [("incoming", rawKey), ("incoming", rawKey)])).2.countP Effect.isUpload = 2 := by
  decide

/-- Claim C7 counterexample.  The claim says that on a dry run the calibration
capability is never invoked.  The calibration call is not gated on
`dry_run` in either variant (src `_process_file` lines 136-169 would call
`_calibrate_file` unconditionally; the handler-wired `_process_file` lines
185-197 runs the dynamic import and `calibration.process_file(file_path)`
with `file_path = None` on a dry run): a concrete dry run *does* invoke the
capability, with a `None` file handle. -/
theorem dryrun_skips_calibration_counterexample :
    Effect.calibrate none
      ∈ (FileProcessorLF.process_file scenarioCollab scenarioBucketLF emptyWorld
          false "incoming" rawKey true).2
    ∧ ((FileProcessorLF.process_file scenarioCollab scenarioBucketLF emptyWorld
          false "incoming" rawKey true).2).countP Effect.isCalibrate = 1 := by
  decide

/-- Claim C8 counterexample.  The claim says every calibration failure is
surfaced to the caller as a structured failure response rather than swallowed.
Both variants catch `ValueError` from the calibration capability and only log
it: the src variant's `_calibrate_file` returns `None` (first conjunct, an
`ok` result), and in the handler-wired variant a run whose calibration raises
`ValueError` completes with `statusCode 200, "File Processed Successfully"`
(no upload is performed, but no failure is reported either). -/
theorem calibration_failure_surfaced_counterexample :
    FileProcessor.calibrate_file scenarioPkg
      (fun _ => .error (.valueError "deterministic calibration failure")) "eea"
      (some "/tmp/hermes_EEA_l0_2023042-000000_v0.bin") =
        (.ok none, [.calibrate (some "/tmp/hermes_EEA_l0_2023042-000000_v0.bin")])
    ∧ (handler_function calValueErrCollab scenarioBucketLF srcWorld false
        (some [("incoming", rawKey)])).1 = ⟨200, "\"File Processed Successfully\""⟩
    ∧ (handler_function calValueErrCollab scenarioBucketLF srcWorld false
        (some [("incoming", rawKey)])).2.countP Effect.isUpload = 0 := by
  decide

/-- Structural facts about the Slack retry loop, by induction on the number of
attempts remaining: at most `remaining` post attempts happen, every sleep
between attempts lasts exactly `slack_retry_delay` seconds, the outcome is
`some true` (delivered) or `none` (gave up), and if every attempt fails the
loop gives up. -/
theorem slackAttempts_policy (attempt : Nat → Bool) (d : Nat) :
    ∀ remaining i,
      ((slackAttempts attempt d i remaining).2.countP Effect.isSlackPost ≤ remaining)
      ∧ (∀ s, Effect.sleep s ∈ (slackAttempts attempt d i remaining).2 → s = d)
      ∧ ((slackAttempts attempt d i remaining).1 = some true
          ∨ (slackAttempts attempt d i remaining).1 = none)
      ∧ ((∀ j, attempt j = false) → (slackAttempts attempt d i remaining).1 = none) := by
  intro remaining
  induction remaining with
  | zero =>
    intro i
    simp [slackAttempts]
  | succ rem ih =>
    intro i
    by_cases ha : attempt i
    · refine ⟨?_, ?_, ?_, ?_⟩
      · simp [slackAttempts, ha, Effect.isSlackPost]
      · intro s hs
        simp [slackAttempts, ha] at hs
      · left; simp [slackAttempts, ha]
      · intro hall
        exact absurd (hall i) (by simp [ha])
    · by_cases hr : rem = 0
      · subst hr
        refine ⟨?_, ?_, ?_, ?_⟩
        · simp [slackAttempts, ha, Effect.isSlackPost]
        · intro s hs
          simp [slackAttempts, ha] at hs
        · right; simp [slackAttempts, ha]
        · intro _
          simp [slackAttempts, ha]
      · obtain ⟨h1, h2, h3, h4⟩ := ih (i + 1)
        refine ⟨?_, ?_, ?_, ?_⟩
        · simp only [slackAttempts, ha, if_false, hr, if_neg, Bool.false_eq_true,
            List.countP_cons]
          simp [Effect.isSlackPost, Nat.add_le_add_iff_right]
          omega
        · intro s hs
          simp only [slackAttempts, ha, Bool.false_eq_true, if_false, hr, if_neg,
            List.mem_cons] at hs
          rcases hs with h | h | h
          · exact absurd h (by simp)
          · exact (Effect.sleep.injEq s d ▸ congrArg (fun e => e) h ▸ by
              cases h; rfl)
          · exact h2 s h
        · simpa [slackAttempts, ha, hr] using h3
        · intro hall
          simpa [slackAttempts, ha, hr] using h4 hall

/-- Claim C9 (confirmed): notification delivery makes at most
`slack_max_retries` attempts — a fixed budget whose defaults are 5 at
`send_slack_notification` itself and 3 at the `FileProcessor` constructor,
both within the claimed 3-5 range — with a fixed `slack_retry_delay`-second
pause between attempts (default 5 seconds, never a growing backoff), and when
every attempt fails it returns `None` (logging only): delivery failure is
never raised to the pipeline. -/
theorem slack_notification_bounded_retry (attempt : Nat → Bool) (m d : Nat) :
    ((send_slack_notification attempt m d).2.countP Effect.isSlackPost ≤ m)
    ∧ (∀ s, Effect.sleep s ∈ (send_slack_notification attempt m d).2 → s = d)
    ∧ ((send_slack_notification attempt m d).1 = some true
        ∨ (send_slack_notification attempt m d).1 = none)
    ∧ ((∀ j, attempt j = false) → (send_slack_notification attempt m d).1 = none)
    ∧ send_slack_notification_default_max_retries = 5
    ∧ fileProcessor_default_slack_retries = 3
    ∧ send_slack_notification_default_retry_delay = 5
    ∧ fileProcessor_default_slack_retry_delay = 5 := by
  obtain ⟨h1, h2, h3, h4⟩ := slackAttempts_policy attempt d m 0
  exact ⟨h1, h2, h3, h4, rfl, rfl, rfl, rfl⟩

/-- Witness for `slack_notification_bounded_retry`: a transport that always
fails, a 3-attempt budget and a 5-second delay; the loop posts exactly 3
times, every sleep is 5 seconds, and it gives up with `None`. -/
theorem slack_notification_bounded_retry_witness :
    ((send_slack_notification (fun _ => false) 3 5).2.countP Effect.isSlackPost ≤ 3)
    ∧ (5 : Nat) = 5
    ∧ ((send_slack_notification (fun _ => false) 3 5).1 = none) := by
  obtain ⟨h1, h2, _h3, h4, _⟩ := slack_notification_bounded_retry (fun _ => false) 3 5
  exact ⟨h1, h2 5 (by decide), h4 (fun _ => rfl)⟩

/-- Python `_calibrate_file` performs at most one calibration invocation and nothing
else: its trace is empty (unknown instrument) or that single invocation. -/
theorem calibrate_file_trace (i2p : String → Option String)
    (cal : Option String → Except PyError (List String))
    (instr : String) (fp : Option String) :
    (FileProcessor.calibrate_file i2p cal instr fp).2 = []
    ∨ (FileProcessor.calibrate_file i2p cal instr fp).2 = [Effect.calibrate fp] := by
  unfold FileProcessor.calibrate_file
  rcases i2p instr with _ | pkg
  · left; rfl
  · rcases h : cal fp with e | l
    · rcases e <;> simp [h]
    · rcases l with _ | ⟨p, l⟩ <;> simp [h]

/-- A dry-run `_put_file` touches no bucket: its trace is empty. -/
theorem put_file_dry_trace (w : World) (parser : String → Except PyError ScienceFile)
    (db : String) (cfn : Option String) :
    (FileProcessor.put_file w parser db cfn true).2 = [] := by
  unfold FileProcessor.put_file
  rcases cfn with _ | fn
  · rfl
  · rcases h : create_s3_file_key parser fn with e | key <;> simp [h]

/-- The key `_put_file` returns does not depend on `dry_run` (only the upload
side effect does). -/
theorem put_file_result_dry_independent (w : World)
    (parser : String → Except PyError ScienceFile) (db : String)
    (cfn : Option String) (d d' : Bool) :
    (FileProcessor.put_file w parser db cfn d).1 =
      (FileProcessor.put_file w parser db cfn d').1 := by
  unfold FileProcessor.put_file
  rcases cfn with _ | fn
  · rfl
  · rcases h : create_s3_file_key parser fn with e | key <;> simp [h]
    split <;> split <;> rfl

/-- The handler-wired `_process_file` reads the world only through the
existence of the *source* object: the contents of the destination bucket —
in particular whether the destination key already exists — cannot affect the
run's result or its trace. -/
theorem lf_process_file_congr (c : Collab) (i2b : String → Option String)
    (w w' : World) (sc : Bool) (b k : String) (d : Bool)
    (h : object_exists w.s3 b k = object_exists w'.s3 b k) :
    FileProcessorLF.process_file c i2b w sc b k d =
      FileProcessorLF.process_file c i2b w' sc b k d := by
  unfold FileProcessorLF.process_file
  rw [h]

/-- A dry run of the handler-wired `_process_file` performs no download and
no upload, whatever happens inside. -/
theorem lf_process_file_dry_effects (c : Collab) (i2b : String → Option String)
    (w : World) (sc : Bool) (b k : String) :
    ((FileProcessorLF.process_file c i2b w sc b k true).2).countP Effect.isDownload = 0
    ∧ ((FileProcessorLF.process_file c i2b w sc b k true).2).countP Effect.isUpload = 0 := by
  unfold FileProcessorLF.process_file FileProcessorLF.outerExcept
  constructor <;>
    · repeat' split <;>
        try simp_all [Effect.isDownload, Effect.isUpload, List.countP_append,
          List.countP_cons]

/-- Claim C6 (confirmed): dry-run purity.  With `dryRun=true`, `_get_file`
returns a null file handle with an empty trace — no existence probe, no
download, no bytes read from the source bucket — and `_put_file` performs no
upload, yet returns exactly the destination key a live run would return for
the same calibrated filename; likewise a dry run of the handler-wired
pipeline downloads and uploads nothing. -/
theorem dryrun_purity (c : Collab) (i2b : String → Option String) (w : World)
    (sc : Bool) (b k p db : String)
    (parser : String → Except PyError ScienceFile) (cfn : Option String) :
    FileProcessor.get_file w b k p true = (.ok none, [])
    ∧ (FileProcessor.put_file w parser db cfn true).2 = []
    ∧ (FileProcessor.put_file w parser db cfn true).1 =
        (FileProcessor.put_file w parser db cfn false).1
    ∧ ((FileProcessorLF.process_file c i2b w sc b k true).2).countP
        Effect.isDownload = 0
    ∧ ((FileProcessorLF.process_file c i2b w sc b k true).2).countP
        Effect.isUpload = 0 := by
  obtain ⟨h1, h2⟩ := lf_process_file_dry_effects c i2b w sc b k
  exact ⟨rfl, put_file_dry_trace w parser db cfn,
    put_file_result_dry_independent w parser db cfn true false, h1, h2⟩

/-- Python `_get_file` reads the world only through the `SDC_AWS_FILE_PATH` override
and the existence of the *source* object. -/
theorem get_file_congr (w w' : World) (b k : String)
    (h1 : w.sdcAwsFilePath = w'.sdcAwsFilePath)
    (h2 : object_exists w.s3 b k = object_exists w'.s3 b k) :
    ∀ p d, FileProcessor.get_file w b k p d = FileProcessor.get_file w' b k p d := by
  intro p d
  unfold FileProcessor.get_file
  rw [h1, h2]

/-- Python `_put_file` reads the world only through the `SDC_AWS_FILE_PATH`
override; in particular it never consults the destination bucket. -/
theorem put_file_congr (w w' : World) (h1 : w.sdcAwsFilePath = w'.sdcAwsFilePath) :
    ∀ (parser : String → Except PyError ScienceFile) (db : String)
      (cfn : Option String) (d : Bool),
      FileProcessor.put_file w parser db cfn d =
        FileProcessor.put_file w' parser db cfn d := by
  intro parser db cfn d
  unfold FileProcessor.put_file
  rw [h1]

/-- A live `_put_file` that returns a key has performed exactly one upload,
of that key, to the destination bucket — unconditionally: no existence check
guards it. -/
theorem put_file_live_upload (w : World) (parser : String → Except PyError ScienceFile)
    (db : String) (cfn : Option String) (key : String)
    (hpath : w.sdcAwsFilePath = none)
    (hok : (FileProcessor.put_file w parser db cfn false).1 = .ok key) :
    (FileProcessor.put_file w parser db cfn false).2 = [Effect.upload db key] := by
  rcases cfn with _ | fn
  · unfold FileProcessor.put_file at hok
    simp at hok
  · unfold FileProcessor.put_file at hok ⊢
    rcases h : create_s3_file_key parser fn with e | k2
    · simp [h] at hok
    · simp [h, hpath] at hok ⊢
      rw [hok]

/-- Claim C1 amended: the code performs *no* destination-existence check and
never skips the push.  What does hold: neither `_put_file` nor the
handler-wired pipeline reads the destination bucket at all — `_put_file`
depends on the world only through the `SDC_AWS_FILE_PATH` override, and the
handler-wired run only through the presence of the *source* object — so
running twice (the second time with the destination key already present)
returns the same deterministic destination key; but a live `_put_file` that
returns a key has always just uploaded it, so the second run performs a
second (identical-content) write rather than no write. -/
theorem publish_idempotency_amended (w w' : World)
    (parser : String → Except PyError ScienceFile) (db : String)
    (cfn : Option String) (key : String) (c : Collab)
    (i2b : String → Option String) (sc : Bool) (b k : String) (d : Bool)
    (h1 : w.sdcAwsFilePath = w'.sdcAwsFilePath)
    (h2 : object_exists w.s3 b k = object_exists w'.s3 b k) :
    FileProcessor.put_file w parser db cfn false =
      FileProcessor.put_file w' parser db cfn false
    ∧ ((FileProcessor.put_file w parser db cfn false).1 = .ok key →
        w.sdcAwsFilePath = none →
        (FileProcessor.put_file w parser db cfn false).2 = [Effect.upload db key])
    ∧ FileProcessorLF.process_file c i2b w sc b k d =
        FileProcessorLF.process_file c i2b w' sc b k d := by
  exact ⟨put_file_congr w w' h1 parser db cfn false,
    fun hok hpath => put_file_live_upload w parser db cfn key hpath hok,
    lf_process_file_congr c i2b w w' sc b k d h2⟩

/-- Witness for `publish_idempotency_amended`: Scenario A, in the world
where only the source object exists versus the world where the destination
key is additionally already present: `_put_file` behaves identically in
both, the (second) live `_put_file` still uploads the destination key, and
the handler-wired runs coincide. -/
theorem publish_idempotency_amended_witness :
    FileProcessor.put_file srcWorld scenarioParser "hermes-eea" (some calKey)
        false =
      FileProcessor.put_file srcAndDestWorldLF scenarioParser "hermes-eea"
        (some calKey) false
    ∧ (FileProcessor.put_file srcWorld scenarioParser "hermes-eea" (some calKey)
        false).2 = [Effect.upload "hermes-eea" destKey]
    ∧ FileProcessorLF.process_file scenarioCollab scenarioBucketLF srcWorld
        false "incoming" rawKey false =
      FileProcessorLF.process_file scenarioCollab scenarioBucketLF
        srcAndDestWorldLF false "incoming" rawKey false := by
  have h := publish_idempotency_amended srcWorld srcAndDestWorldLF scenarioParser
    "hermes-eea" (some calKey) destKey scenarioCollab scenarioBucketLF false
    "incoming" rawKey false rfl (by decide)
  exact ⟨h.1, h.2.1 (by decide) rfl, h.2.2⟩

/-- Python `_get_file` only probes and downloads: any effect predicate that is false
on `headObject` and `download` selects nothing from its trace. -/
theorem get_file_filter (q : Effect → Bool)
    (hq1 : ∀ b k, q (.headObject b k) = false)
    (hq2 : ∀ b k, q (.download b k) = false)
    (w : World) (b k p : String) (d : Bool) :
    ((FileProcessor.get_file w b k p d).2).filter q = [] := by
  cases d
  · unfold FileProcessor.get_file
    rcases hw : w.sdcAwsFilePath with _ | p'
    · by_cases he : object_exists w.s3 b k <;> simp [hw, he, hq1, hq2]
    · simp [hw]
  · rfl

/-- Python `_put_file` either uploads exactly one key to the destination bucket or
touches nothing. -/
theorem put_file_trace (w : World) (parser : String → Except PyError ScienceFile)
    (db : String) (cfn : Option String) (d : Bool) :
    (FileProcessor.put_file w parser db cfn d).2 = []
    ∨ ∃ key, (FileProcessor.put_file w parser db cfn d).2 = [Effect.upload db key] := by
  unfold FileProcessor.put_file
  rcases cfn with _ | fn
  · left; rfl
  · rcases h : create_s3_file_key parser fn with e | k2
    · simp [h]
    · simp only [h]
      by_cases hc : (!d && decide (w.sdcAwsFilePath = none)) = true <;> simp [hc]

/-- A single `_process_file` run never constructs another `FileProcessor`:
its trace is `fpRun`-free. -/
theorem process_file_no_fpRun (c : Collab) (w : World) (b k env : String) (d : Bool) :
    ((FileProcessor.process_file c w b k env d).2).filter Effect.isFpRun = [] := by
  unfold FileProcessor.process_file
  rcases hp : FileProcessor.parse_file c.parser c.get_instrument_bucket k env
    with e | ⟨pk, sf, instr, db2⟩
  · simp
  · have h1 := get_file_filter Effect.isFpRun (fun _ _ => rfl) (fun _ _ => rfl) w b k pk d
    rcases hg : FileProcessor.get_file w b k pk d with ⟨res1, t1⟩
    rw [hg] at h1
    rcases res1 with e1 | fp
    · simp [hg, h1]
    · have h2 := calibrate_file_trace c.instr_to_pkg c.cal instr fp
      rcases hc : FileProcessor.calibrate_file c.instr_to_pkg c.cal instr fp
        with ⟨res2, t2⟩
      rw [hc] at h2
      rcases res2 with e2 | cfn
      · rcases h2 with h2 | h2 <;> subst h2 <;>
          simp [hg, hc, h1, Effect.isFpRun]
      · have h3 := put_file_trace w c.parser db2 cfn d
        rcases hput : FileProcessor.put_file w c.parser db2 cfn d with ⟨res3, t3⟩
        rw [hput] at h3
        rcases h3 with h3 | ⟨key, h3⟩ <;> subst h3 <;>
          rcases h2 with h2 | h2 <;> subst h2 <;>
            simp [hg, hc, hput, h1, Effect.isFpRun]

/-- Claim C4 amended: only `handle_event` (the src variant, which returns from
inside its loop) acts on the first storage-change record alone — its trace
contains exactly one `FileProcessor` construction, for the head record,
whatever the rest of the envelope holds.  `handler_function`, by contrast,
iterates over every record (see the counterexample), so the "documented
limitation" describes `handle_event` only. -/
theorem only_first_record_amended (c : Collab) (w : World) (b k env : String)
    (rest : List (String × String)) :
    ((handle_event c w (some ((b, k) :: rest)) env).2).filter Effect.isFpRun =
      [Effect.fpRun b k] := by
  have h := process_file_no_fpRun c w b k env false
  unfold handle_event
  rcases hr : FileProcessor.process_file c w b k env false with ⟨res, t⟩
  rw [hr] at h
  rcases res with e | key <;> simp [hr, h, Effect.isFpRun]

/-- The `handler_function` loop returns either the 200 success response or a
500 response whose body is the JSON-encoded `"Error Processing File: <message>"`. -/
theorem handler_loop_shape (c : Collab) (i2b : String → Option String)
    (w : World) (sc : Bool) :
    ∀ (recs : List (String × String)) (acc : List Effect),
      (handler_loop c i2b w sc recs acc).1 =
          ⟨200, json_dumps "File Processed Successfully"⟩
      ∨ ∃ m, (handler_loop c i2b w sc recs acc).1 =
          ⟨500, json_dumps ("Error Processing File: " ++ m)⟩ := by
  intro recs
  induction recs with
  | nil => intro acc; left; rfl
  | cons r rest ih =>
    intro acc
    obtain ⟨b, k⟩ := r
    rcases h : (FileProcessorLF.process_file c i2b w sc b k false).1 with e | u
    · right
      exact ⟨e.message, by simp [handler_loop, h]⟩
    · simpa [handler_loop, h] using ih _

/-- Claim C3 amended: for every envelope whose inner record list is non-empty,
`handle_event` returns a response dict — `{200, "File Processed Successfully"}`
on success, `{500, json.dumps("Error Processing File: <message>")}` on any
failure — and `handler_function` returns such a response dict for *every*
envelope (its success body additionally passes through `json.dumps`).  The
exception `handle_event` makes to the claim is the empty record list, where
it returns `None` instead of a dict (see the counterexample). -/
theorem handler_response_contract_amended (c : Collab) (i2b : String → Option String)
    (w : World) (sc : Bool) (env b k : String) (rest : List (String × String))
    (records? : Option (List (String × String))) :
    (∃ r, (handle_event c w (some ((b, k) :: rest)) env).1 = some r
      ∧ (r = ⟨200, "File Processed Successfully"⟩
        ∨ ∃ m, r = ⟨500, json_dumps ("Error Processing File: " ++ m)⟩))
    ∧ ((handler_function c i2b w sc records?).1 =
          ⟨200, json_dumps "File Processed Successfully"⟩
      ∨ ∃ m, (handler_function c i2b w sc records?).1 =
          ⟨500, json_dumps ("Error Processing File: " ++ m)⟩) := by
  constructor
  · unfold handle_event
    rcases hr : (FileProcessor.process_file c w b k env false).1 with e | key
    · exact ⟨_, by simp [hr], Or.inr ⟨e.message, rfl⟩⟩
    · exact ⟨_, by simp [hr], Or.inl rfl⟩
  · rcases records? with _ | recs
    · right
      exact ⟨"malformed event", rfl⟩
    · exact handler_loop_shape c i2b w sc recs []

/-- When the instrument has a registered package, `_calibrate_file` always
invokes the calibration capability — exactly once — whatever the file handle
(including the `None` handle of a dry run). -/
theorem calibrate_file_invokes (i2p : String → Option String)
    (cal : Option String → Except PyError (List String))
    (instr : String) (fp : Option String) (pkg : String)
    (h : i2p instr = some pkg) :
    (FileProcessor.calibrate_file i2p cal instr fp).2 = [Effect.calibrate fp] := by
  unfold FileProcessor.calibrate_file
  rcases hc : cal fp with e | l
  · rcases e <;> simp [h, hc]
  · rcases l with _ | ⟨p, l⟩ <;> simp [h, hc]

/-- On a dry run the handler-wired `_process_file` reaches the calibration
call with the `None` file handle whenever parsing and both registry lookups
succeed: the capability is invoked. -/
theorem lf_process_file_dry_calibrates (c : Collab) (i2b : String → Option String)
    (w : World) (sc : Bool) (b k : String) (sf : ScienceFile) (db pkg : String)
    (hp : c.parser (parse_file_key k) = .ok sf)
    (hb : i2b sf.instrument = some db)
    (hpkg : c.instr_to_pkg sf.instrument = some pkg) :
    Effect.calibrate none
      ∈ (FileProcessorLF.process_file c i2b w sc b k true).2 := by
  unfold FileProcessorLF.process_file
  rcases hcal : c.cal none with e | l
  · rcases e <;>
      simp [hp, hb, hpkg, hcal, FileProcessorLF.outerExcept]
  · rcases l with _ | ⟨p, l⟩
    · simp [hp, hb, hpkg, hcal, FileProcessorLF.outerExcept]
    · rcases hck : create_s3_file_key c.parser (parse_file_key p) with e2 | k2
      · rcases e2 <;>
          simp [hp, hb, hpkg, hcal, hck, FileProcessorLF.outerExcept]
      · simp [hp, hb, hpkg, hcal, hck]

/-- Claim C7 amended: a dry run skips the fetch and the publish, but it does
*not* skip calibration — the calibration call is not gated on `dry_run`, so
on a dry run the capability is invoked with a `None` file handle (while no
download and no upload happens).  Dry run therefore exercises routing,
addressing *and* the calibration entry point, not routing alone. -/
theorem dryrun_skips_calibration_amended (c : Collab)
    (i2b : String → Option String) (w : World) (sc : Bool) (b k : String)
    (sf : ScienceFile) (db pkg : String)
    (hp : c.parser (parse_file_key k) = .ok sf)
    (hb : i2b sf.instrument = some db)
    (hpkg : c.instr_to_pkg sf.instrument = some pkg) :
    Effect.calibrate none
        ∈ (FileProcessorLF.process_file c i2b w sc b k true).2
    ∧ ((FileProcessorLF.process_file c i2b w sc b k true).2).countP
        Effect.isDownload = 0
    ∧ ((FileProcessorLF.process_file c i2b w sc b k true).2).countP
        Effect.isUpload = 0 := by
  obtain ⟨h1, h2⟩ := lf_process_file_dry_effects c i2b w sc b k
  exact ⟨lf_process_file_dry_calibrates c i2b w sc b k sf db pkg hp hb hpkg, h1, h2⟩

/-- Witness for `dryrun_skips_calibration_amended`: the Scenario A dry run
invokes the capability with the `None` handle and moves no object bytes. -/
theorem dryrun_skips_calibration_amended_witness :
    Effect.calibrate none
        ∈ (FileProcessorLF.process_file scenarioCollab scenarioBucketLF emptyWorld
            false "incoming" rawKey true).2
    ∧ ((FileProcessorLF.process_file scenarioCollab scenarioBucketLF emptyWorld
        false "incoming" rawKey true).2).countP Effect.isDownload = 0
    ∧ ((FileProcessorLF.process_file scenarioCollab scenarioBucketLF emptyWorld
        false "incoming" rawKey true).2).countP Effect.isUpload = 0 := by
  exact dryrun_skips_calibration_amended scenarioCollab scenarioBucketLF
    emptyWorld false "incoming" rawKey ⟨"eea", "l0", 2023, 2⟩ "hermes-eea"
    "hermes_eea" (by decide) (by decide) (by decide)

/-- A `_put_file` that raised performed no upload: its trace is empty. -/
theorem put_file_error_no_trace (w : World)
    (parser : String → Except PyError ScienceFile) (db : String)
    (cfn : Option String) (d : Bool) (e : PyError)
    (h : (FileProcessor.put_file w parser db cfn d).1 = .error e) :
    (FileProcessor.put_file w parser db cfn d).2 = [] := by
  rcases cfn with _ | fn
  · rfl
  · unfold FileProcessor.put_file at h ⊢
    rcases hk : create_s3_file_key parser fn with e2 | k2
    · simp [hk]
    · simp [hk] at h
      split at h <;> simp at h

/-- The handler-wired `_process_file` invokes the calibration capability at
most once per run — there is no retry of calibration anywhere in the
pipeline — and a run that raised performed no upload. -/
theorem lf_process_file_effects (c : Collab) (i2b : String → Option String)
    (w : World) (sc : Bool) (b k : String) (d : Bool) :
    ((FileProcessorLF.process_file c i2b w sc b k d).2).countP
        Effect.isCalibrate ≤ 1
    ∧ (∀ e, (FileProcessorLF.process_file c i2b w sc b k d).1 = .error e →
        ((FileProcessorLF.process_file c i2b w sc b k d).2).countP
          Effect.isUpload = 0) := by
  unfold FileProcessorLF.process_file FileProcessorLF.outerExcept
  constructor
  · repeat' split <;>
      try simp_all [Effect.isCalibrate, List.countP_append, List.countP_cons]
  · intro e he
    revert he
    repeat' split <;>
      try simp_all [Effect.isUpload, List.countP_append, List.countP_cons]

/-- When the registry knows the instrument and the capability raises a
`ValueError`, `_calibrate_file` catches it, logs, and returns `None` — the
`ok` result of a swallowed failure. -/
theorem calibrate_file_swallows_valueError (i2p : String → Option String)
    (cal : Option String → Except PyError (List String))
    (instr : String) (fp : Option String) (pkg m : String)
    (h1 : i2p instr = some pkg) (h2 : cal fp = .error (.valueError m)) :
    FileProcessor.calibrate_file i2p cal instr fp = (.ok none, [.calibrate fp]) := by
  unfold FileProcessor.calibrate_file
  simp [h1, h2]

/-- Claim C8 amended: the dispatcher indeed never retries — the calibration
capability runs at most once per invocation — and a run that raises performs
no publish write; but a calibration failure raised as `ValueError` is *not*
surfaced: `_calibrate_file` (src variant) catches it and returns `None` (an
`ok` result), and the handler-wired variant's inner `except ValueError`
likewise swallows it, reporting plain success (see the counterexample).
Only non-`ValueError` calibration failures propagate as a structured failure
response. -/
theorem calibration_failure_fatal_amended (c : Collab)
    (i2b : String → Option String) (w : World) (sc : Bool) (b k : String)
    (d : Bool) (i2p : String → Option String)
    (cal : Option String → Except PyError (List String))
    (instr : String) (fp : Option String) (pkg m : String)
    (h1 : i2p instr = some pkg) (h2 : cal fp = .error (.valueError m)) :
    ((FileProcessorLF.process_file c i2b w sc b k d).2).countP
        Effect.isCalibrate ≤ 1
    ∧ (∀ e, (FileProcessorLF.process_file c i2b w sc b k d).1 = .error e →
        ((FileProcessorLF.process_file c i2b w sc b k d).2).countP
          Effect.isUpload = 0)
    ∧ FileProcessor.calibrate_file i2p cal instr fp = (.ok none, [.calibrate fp]) := by
  obtain ⟨ha, hb⟩ := lf_process_file_effects c i2b w sc b k d
  exact ⟨ha, hb, calibrate_file_swallows_valueError i2p cal instr fp pkg m h1 h2⟩

/-- Witness for `calibration_failure_fatal_amended`: the Scenario A run whose
calibration capability crashes with a non-`ValueError` (the run fails and
uploads nothing), plus the swallowed `ValueError` at concrete arguments. -/
theorem calibration_failure_fatal_amended_witness :
    ((FileProcessorLF.process_file calOtherErrCollab scenarioBucketLF srcWorld
        false "incoming" rawKey false).2).countP Effect.isCalibrate ≤ 1
    ∧ ((FileProcessorLF.process_file calOtherErrCollab scenarioBucketLF srcWorld
        false "incoming" rawKey false).2).countP Effect.isUpload = 0
    ∧ FileProcessor.calibrate_file scenarioPkg
        (fun _ => .error (.valueError "boom")) "eea" (some "/tmp/x") =
        (.ok none, [.calibrate (some "/tmp/x")]) := by
  have h := calibration_failure_fatal_amended calOtherErrCollab scenarioBucketLF
    srcWorld false "incoming" rawKey false scenarioPkg
    (fun _ => .error (.valueError "boom")) "eea" (some "/tmp/x") "hermes_eea" "boom"
    (by decide) rfl
  exact ⟨h.1, h.2.1 (.other "calibration crashed") (by decide), h.2.2⟩

/-- Any positive fuel produces at least one digit character. -/
theorem toDigitsCore_length_ge (b : Nat) :
    ∀ (f n : Nat) (acc : List Char), 0 < f →
      acc.length + 1 ≤ (Nat.toDigitsCore b f n acc).length := by
  intro f
  induction f with
  | zero => intro n acc h; omega
  | succ f ih =>
    intro n acc _
    rw [Nat.toDigitsCore]
    by_cases h : n / b = 0
    · simp [h]
    · simp only [h, if_false]
      rcases Nat.eq_zero_or_pos f with hf | hf
      · subst hf
        simp [Nat.toDigitsCore]
      · have := ih (n / b) (Nat.digitChar (n % b) :: acc) hf
        simp at this ⊢
        omega

/-- A number at least `10 ^ e` has at least `e + 1` decimal digits. -/
theorem toDigitsCore_length_ge_pow (e : Nat) :
    ∀ (f n : Nat) (acc : List Char), 10 ^ e ≤ n → n < f →
      e + 1 + acc.length ≤ (Nat.toDigitsCore 10 f n acc).length := by
  induction e with
  | zero =>
    intro f n acc h1 h2
    have hf : 0 < f := by omega
    have := toDigitsCore_length_ge 10 f n acc hf
    omega
  | succ e ih =>
    intro f n acc h1 h2
    have hten : 10 ≤ n := by
      have h10 : 10 ≤ 10 ^ (e + 1) := by
        calc 10 = 10 ^ 1 := by norm_num
        _ ≤ 10 ^ (e + 1) := Nat.pow_le_pow_right (by omega) (by omega)
      omega
    obtain ⟨f', rfl⟩ : ∃ f', f = f' + 1 := ⟨f - 1, by omega⟩
    have hd : ¬(n / 10 = 0) := by
      intro h0
      have := (Nat.div_eq_zero_iff (by omega : (0 : Nat) < 10)).mp h0
      omega
    rw [Nat.toDigitsCore]
    simp only [hd, if_false]
    have h1' : 10 ^ e ≤ n / 10 := by
      rw [Nat.le_div_iff_mul_le (by omega)]
      calc 10 ^ e * 10 = 10 ^ (e + 1) := by ring
      _ ≤ n := h1
    have h2' : n / 10 < f' := by
      have := Nat.div_lt_self (by omega : 0 < n) (by omega : 1 < 10)
      omega
    have := ih f' (n / 10) (Nat.digitChar (n % 10) :: acc) h1' h2'
    simp at this ⊢
    omega

/-- Python `f"{year}"` renders a calendar year in `[1000, 9999]` with exactly four
characters. -/
theorem natRepr_length_four (n : Nat) (h1 : 1000 ≤ n) (h2 : n ≤ 9999) :
    (Nat.repr n).length = 4 := by
  have hle : (Nat.repr n).length ≤ 4 := Nat.repr_length n 4 (by omega) (by omega)
  have hge : 4 ≤ (Nat.repr n).length := by
    have h := toDigitsCore_length_ge_pow 3 (n + 1) n []
      (by norm_num; omega) (by omega)
    simpa [Nat.repr, Nat.toDigits, List.asString, String.length] using h
  omega

/-- The month segment of `create_s3_file_key` is always exactly two
characters for calendar months. -/
theorem month2_length (m : Nat) (h1 : 1 ≤ m) (h2 : m ≤ 12) :
    (month2 m).length = 2 := by
  interval_cases m <;> decide

/-- Claim C5 (confirmed): for every filename the science filename parser
accepts, `create_s3_file_key` returns exactly
`{level}/{year}/{month}/{filename}`, where the year segment is the decimal
rendering of the parsed reference timestamp's year — four characters for any
calendar year — and the month segment always has exactly two characters,
zero-padding months 1-9; on the Scenario A calibrated filename
`hermes_eea_l1_20230211T000000_v1.0.0.cdf` the key is
`l1/2023/02/hermes_eea_l1_20230211T000000_v1.0.0.cdf`. -/
theorem destination_key_format (parser : String → Except PyError ScienceFile)
    (fn : String) (sf : ScienceFile) (h : parser fn = .ok sf)
    (hm1 : 1 ≤ sf.timeMonth) (hm2 : sf.timeMonth ≤ 12)
    (hy1 : 1000 ≤ sf.timeYear) (hy2 : sf.timeYear ≤ 9999) :
    create_s3_file_key parser fn =
      .ok (sf.level ++ "/" ++ toString sf.timeYear ++ "/" ++ month2 sf.timeMonth
        ++ "/" ++ fn)
    ∧ (month2 sf.timeMonth).length = 2
    ∧ (toString sf.timeYear).length = 4
    ∧ create_s3_file_key scenarioParser "hermes_eea_l1_20230211T000000_v1.0.0.cdf" =
        .ok "l1/2023/02/hermes_eea_l1_20230211T000000_v1.0.0.cdf" := by
  refine ⟨by simp [create_s3_file_key, h], month2_length sf.timeMonth hm1 hm2,
    natRepr_length_four sf.timeYear hy1 hy2, by decide⟩

/-- Witness for `destination_key_format`: Scenario A itself. -/
theorem destination_key_format_witness :
    create_s3_file_key scenarioParser "hermes_eea_l1_20230211T000000_v1.0.0.cdf" =
      .ok ("l1" ++ "/" ++ toString (2023 : Nat) ++ "/" ++ month2 2 ++ "/"
        ++ "hermes_eea_l1_20230211T000000_v1.0.0.cdf")
    ∧ (month2 2).length = 2
    ∧ (toString (2023 : Nat)).length = 4 := by
  have h := destination_key_format scenarioParser
    "hermes_eea_l1_20230211T000000_v1.0.0.cdf" ⟨"eea", "l1", 2023, 2⟩
    (by decide) (by decide) (by decide) (by decide) (by decide)
  exact ⟨h.1, h.2.1, h.2.2.1⟩

/-- Decimal digit characters are never the separator `'/'`. -/
theorem digitChar_ne_slash : ∀ m, m < 10 → Nat.digitChar m ≠ '/' := by
  decide

/-- The core function `Nat.toDigitsCore` emits only digit characters (and the accumulator):
no `'/'` ever appears. -/
theorem toDigitsCore_ne_slash :
    ∀ (f n : Nat) (acc : List Char), (∀ c ∈ acc, c ≠ '/') →
      ∀ c ∈ Nat.toDigitsCore 10 f n acc, c ≠ '/' := by
  intro f
  induction f with
  | zero =>
    intro n acc hacc
    simpa [Nat.toDigitsCore] using hacc
  | succ f ih =>
    intro n acc hacc
    rw [Nat.toDigitsCore]
    have hd : Nat.digitChar (n % 10) ≠ '/' :=
      digitChar_ne_slash _ (Nat.mod_lt _ (by omega))
    have hcons : ∀ c ∈ Nat.digitChar (n % 10) :: acc, c ≠ '/' := by
      intro c hc
      rcases List.mem_cons.mp hc with rfl | hc
      · exact hd
      · exact hacc c hc
    by_cases h : n / 10 = 0
    · simpa [h] using hcons
    · simp only [h, if_false]
      exact ih (n / 10) _ hcons

/-- The decimal rendering of a natural number contains no `'/'`. -/
theorem natRepr_ne_slash (n : Nat) : ∀ c ∈ (Nat.repr n).data, c ≠ '/' := by
  have h := toDigitsCore_ne_slash (n + 1) n [] (by simp)
  simpa [Nat.repr, Nat.toDigits, List.asString] using h

/-- The month segment contains no `'/'`. -/
theorem month2_ne_slash (m : Nat) : ∀ c ∈ (month2 m).data, c ≠ '/' := by
  unfold month2
  by_cases h : m < 10
  · simp only [h, if_true]
    intro c hc
    rw [String.data_append] at hc
    rcases List.mem_append.mp hc with hc | hc
    · simp at hc
      subst hc
      decide
    · exact natRepr_ne_slash m c hc
  · simp only [h, if_false]
    exact natRepr_ne_slash m

/-- Splitting a separator-free character list leaves it whole. -/
theorem splitSlashChars_all (d : List Char) (h : ∀ c ∈ d, c ≠ '/') :
    splitSlashChars d = [d] := by
  induction d with
  | nil => rfl
  | cons c cs ih =>
    have hc : c ≠ '/' := h c (by simp)
    have hr := ih (fun x hx => h x (by simp [hx]))
    simp [splitSlashChars, hc, hr]

/-- Splitting at an explicit separator after a separator-free segment. -/
theorem splitSlashChars_append (a rest : List Char) (h : ∀ c ∈ a, c ≠ '/') :
    splitSlashChars (a ++ '/' :: rest) = a :: splitSlashChars rest := by
  induction a with
  | nil => simp [splitSlashChars]
  | cons c cs ih =>
    have hc : c ≠ '/' := h c (by simp)
    have hr := ih (fun x hx => h x (by simp [hx]))
    simp [splitSlashChars, hc, hr]

/-- Rebuilding a string from its own characters is the identity. -/
theorem stringMk_data (s : String) : String.mk s.data = s := rfl

/-- Claim C10 (confirmed): whenever the key builder succeeds (the parser
accepts the filename; level and filename contain no separator, as the
science-filename grammar guarantees), the returned key splits on `"/"` into
exactly four segments — level, year, month, filename — and the last segment
is the input filename, verbatim. -/
theorem destination_key_segments (parser : String → Except PyError ScienceFile)
    (fn : String) (sf : ScienceFile) (h : parser fn = .ok sf)
    (hl : ∀ c ∈ sf.level.data, c ≠ '/') (hf : ∀ c ∈ fn.data, c ≠ '/') :
    ∃ key, create_s3_file_key parser fn = .ok key
      ∧ split_on_slash key =
          [sf.level, toString sf.timeYear, month2 sf.timeMonth, fn]
      ∧ (split_on_slash key).length = 4
      ∧ (split_on_slash key).getLast? = some fn := by
  have hy : ∀ c ∈ (toString sf.timeYear).data, c ≠ '/' := natRepr_ne_slash sf.timeYear
  have hm : ∀ c ∈ (month2 sf.timeMonth).data, c ≠ '/' := month2_ne_slash sf.timeMonth
  refine ⟨sf.level ++ "/" ++ toString sf.timeYear ++ "/" ++ month2 sf.timeMonth
    ++ "/" ++ fn, by simp [create_s3_file_key, h], ?_, ?_, ?_⟩
  all_goals
    have hdata : (sf.level ++ "/" ++ toString sf.timeYear ++ "/"
        ++ month2 sf.timeMonth ++ "/" ++ fn).data =
        sf.level.data ++ '/' :: ((toString sf.timeYear).data ++ '/'
          :: ((month2 sf.timeMonth).data ++ '/' :: fn.data)) := by
      simp [String.data_append]
    all_goals
      unfold split_on_slash
      rw [hdata, splitSlashChars_append _ _ hl, splitSlashChars_append _ _ hy,
        splitSlashChars_append _ _ hm, splitSlashChars_all _ hf]
      simp [stringMk_data]

/-- Witness for `destination_key_segments`: the Scenario A calibrated
filename splits into `["l1", "2023", "02", filename]`. -/
theorem destination_key_segments_witness :
    ∃ key, create_s3_file_key scenarioParser
        "hermes_eea_l1_20230211T000000_v1.0.0.cdf" = .ok key
      ∧ split_on_slash key =
          ["l1", toString (2023 : Nat), month2 2,
            "hermes_eea_l1_20230211T000000_v1.0.0.cdf"]
      ∧ (split_on_slash key).length = 4
      ∧ (split_on_slash key).getLast? =
          some "hermes_eea_l1_20230211T000000_v1.0.0.cdf" := by
  exact destination_key_segments scenarioParser
    "hermes_eea_l1_20230211T000000_v1.0.0.cdf" ⟨"eea", "l1", 2023, 2⟩
    (by decide) (by decide) (by decide)
